import Mathlib

/-!
Verification of the api-creator gateway / container-lifecycle core.

Shallow embedding of:
* `backend/api_deployer.py` (`APIDeployer`): port allocator, deploy/stop/restart,
  health poll, cleanup sweep;
* `fastapi-backend/rate_limiter.py`: windowed rate limiting with fail-open policy;
* `backend/auth.py` (`verify_api_key`) and the auth stage of
  `backend/main.py::proxy_to_user_api`.

Machine integers are modelled as `Nat` with explicit reduction modulo `2 ^ 32`
where the source's arithmetic is 32-bit (inside SHA-256).  External collaborators
(the Docker daemon, the Supabase store) are modelled as explicit oracle
structures passed to each operation; an operation that the Python code lets
raise is modelled as an `Option`/error-flag outcome.
-/

namespace ApiCreator

/-! ### SHA-256, as used by `hashlib.sha256` in `APIDeployer._get_port_for_api`.

All words are `Nat` reduced mod `2 ^ 32`.  `sha256Nat` returns the digest as the
natural number denoted by the 64-character hex digest, i.e. exactly the value of
Python's `int(hashlib.sha256(b).hexdigest(), 16)`. -/

def w32 (x : Nat) : Nat := x % 4294967296

def rotr32 (n x : Nat) : Nat := w32 ((x >>> n) ||| (x <<< (32 - n)))

def shaNot32 (x : Nat) : Nat := x ^^^ 4294967295

def bsig0 (x : Nat) : Nat := rotr32 2 x ^^^ rotr32 13 x ^^^ rotr32 22 x

def bsig1 (x : Nat) : Nat := rotr32 6 x ^^^ rotr32 11 x ^^^ rotr32 25 x

def ssig0 (x : Nat) : Nat := rotr32 7 x ^^^ rotr32 18 x ^^^ (x >>> 3)

def ssig1 (x : Nat) : Nat := rotr32 17 x ^^^ rotr32 19 x ^^^ (x >>> 10)

def shaCh (x y z : Nat) : Nat := (x &&& y) ^^^ (shaNot32 x &&& z)

def shaMaj (x y z : Nat) : Nat := (x &&& y) ^^^ (x &&& z) ^^^ (y &&& z)

/-- The 64 SHA-256 round constants, written in decimal. -/
def shaK : List Nat :=
  [1116352408, 1899447441, 3049323471, 3921009573, 961987163,
   1508970993, 2453635748, 2870763221, 3624381080, 310598401,
   607225278, 1426881987, 1925078388, 2162078206, 2614888103,
   3248222580, 3835390401, 4022224774, 264347078, 604807628,
   770255983, 1249150122, 1555081692, 1996064986, 2554220882,
   2821834349, 2952996808, 3210313671, 3336571891, 3584528711,
   113926993, 338241895, 666307205, 773529912, 1294757372,
   1396182291, 1695183700, 1986661051, 2177026350, 2456956037,
   2730485921, 2820302411, 3259730800, 3345764771, 3516065817,
   3600352804, 4094571909, 275423344, 430227734, 506948616,
   659060556, 883997877, 958139571, 1322822218, 1537002063,
   1747873779, 1955562222, 2024104815, 2227730452, 2361852424,
   2428436474, 2756734187, 3204031479, 3329325298]

/-- The eight SHA-256 initial hash words, written in decimal. -/
def shaH0 : List Nat :=
  [1779033703, 3144134277, 1013904242, 2773480762,
   1359893119, 2600822924, 528734635, 1541459225]

/-- One step of the message-schedule extension; the list keeps the most recent
word first, so `W[t-2]` is at index 1, `W[t-7]` at 6, `W[t-15]` at 14 and
`W[t-16]` at 15. -/
def schedStep (l : List Nat) : List Nat :=
  w32 (ssig1 (l.getD 1 0) + l.getD 6 0 + ssig0 (l.getD 14 0) + l.getD 15 0) :: l

/-- Full 64-word message schedule from the 16 block words. -/
def schedule (ws16 : List Nat) : List Nat :=
  (schedStep^[48] ws16.reverse).reverse

/-- The eight 32-bit working variables of the compression loop. -/
structure Sha8 where
  a : Nat
  b : Nat
  c : Nat
  d : Nat
  e : Nat
  f : Nat
  g : Nat
  h : Nat
deriving DecidableEq, Repr

def compressStep (st : Sha8) (kw : Nat × Nat) : Sha8 :=
  let t1 := w32 (st.h + bsig1 st.e + shaCh st.e st.f st.g + kw.1 + kw.2)
  let t2 := w32 (bsig0 st.a + shaMaj st.a st.b st.c)
  ⟨w32 (t1 + t2), st.a, st.b, st.c, w32 (st.d + t1), st.e, st.f, st.g⟩

/-- Compress one 16-word block into the running 8-word hash value. -/
def compressBlock (hs : List Nat) (ws16 : List Nat) : List Nat :=
  let init : Sha8 :=
    ⟨hs.getD 0 0, hs.getD 1 0, hs.getD 2 0, hs.getD 3 0,
     hs.getD 4 0, hs.getD 5 0, hs.getD 6 0, hs.getD 7 0⟩
  let st := (shaK.zip (schedule ws16)).foldl compressStep init
  [w32 (hs.getD 0 0 + st.a), w32 (hs.getD 1 0 + st.b), w32 (hs.getD 2 0 + st.c),
   w32 (hs.getD 3 0 + st.d), w32 (hs.getD 4 0 + st.e), w32 (hs.getD 5 0 + st.f),
   w32 (hs.getD 6 0 + st.g), w32 (hs.getD 7 0 + st.h)]

/-- Big-endian 8-byte encoding of a (64-bit) length. -/
def be64 (n : Nat) : List Nat :=
  [n / 2 ^ 56 % 256, n / 2 ^ 48 % 256, n / 2 ^ 40 % 256, n / 2 ^ 32 % 256,
   n / 2 ^ 24 % 256, n / 2 ^ 16 % 256, n / 2 ^ 8 % 256, n % 256]

/-- SHA-256 padding: append `0x80`, zero bytes to 56 mod 64, then the bit
length as a big-endian 64-bit integer. -/
def padBytes (msg : List Nat) : List Nat :=
  let padlen := (119 - msg.length % 64) % 64
  msg ++ [0x80] ++ List.replicate padlen 0 ++ be64 (8 * msg.length)

/-- Split the padded byte list into 64-byte blocks (fuel-driven; the fuel is
always sufficient because every step consumes 64 bytes of a nonempty list). -/
def chunk64 : Nat → List Nat → List (List Nat)
  | 0, _ => []
  | _ + 1, [] => []
  | fuel + 1, l => l.take 64 :: chunk64 fuel (l.drop 64)

/-- Four big-endian bytes at a time into 32-bit words. -/
def bytesToWords : List Nat → List Nat
  | b0 :: b1 :: b2 :: b3 :: rest =>
    (b0 * 2 ^ 24 + b1 * 2 ^ 16 + b2 * 2 ^ 8 + b3) :: bytesToWords rest
  | _ => []

/-- SHA-256 of a byte list, returned as the 256-bit digest value
(`int(hexdigest, 16)` in the Python source). -/
def sha256Nat (msg : List Nat) : Nat :=
  let blocks := chunk64 (msg.length + 72) (padBytes msg)
  let hs := blocks.foldl (fun hs b => compressBlock hs (bytesToWords b)) shaH0
  hs.foldl (fun acc h => acc * 2 ^ 32 + h) 0

/-- UTF-8 encoding of one code point (`str.encode()` on each character). -/
def utf8Bytes (c : Nat) : List Nat :=
  if c < 0x80 then [c]
  else if c < 0x800 then [0xC0 + c / 0x40, 0x80 + c % 0x40]
  else if c < 0x10000 then
    [0xE0 + c / 0x1000, 0x80 + c / 0x40 % 0x40, 0x80 + c % 0x40]
  else
    [0xF0 + c / 0x40000, 0x80 + c / 0x1000 % 0x40, 0x80 + c / 0x40 % 0x40,
     0x80 + c % 0x40]

/-- `api_id.encode()`: UTF-8 bytes of the string. -/
def strBytes (s : String) : List Nat :=
  (s.data.map (fun ch => utf8Bytes ch.toNat)).flatten

/-- `APIDeployer._get_port_for_api` (api_deployer.py lines 28-31):
`9000 + int(hashlib.sha256(api_id.encode()).hexdigest(), 16) % 10000`. -/
def _get_port_for_api (api_id : String) : Nat :=
  9000 + sha256Nat (strBytes api_id) % 10000

set_option maxRecDepth 20000

-- The embedding reproduces the FIPS 180-2 test vector for "abc", and the
-- port matches `9000 + int(hashlib.sha256(b"abc").hexdigest(), 16) % 10000`.
example : sha256Nat (strBytes "abc") =
    0xba7816bf8f01cfea414140de5dae2223b00361a396177a9cb410ff61f20015ad := by
  decide

example : _get_port_for_api "abc" = 18965 := by decide

/-! ### Deployment manager (`backend/api_deployer.py`, class `APIDeployer`).

`self.api_containers : Dict[str, Dict]` is modelled as an association list from
tenant ID to its `ContainerInfo`; a Python dict has unique keys, and every code
path below inserts a key only when it is absent.  The Docker daemon is an
oracle `DockerEnv`; an operation the Python code lets raise is an
`Option`-valued field (`none` = the call raised). -/

/-- One value of `self.api_containers[api_id]`: the container handle, host
port even, and image tag. -/
structure ContainerInfo where
  handle : String
  port : Nat
  image : String
deriving DecidableEq, Repr

abbrev DeployerState : Type := List (String × ContainerInfo)

/-- `api_id in self.api_containers` / `self.api_containers[api_id]`. -/
def tblLookup (st : DeployerState) (api_id : String) : Option ContainerInfo :=
  (st.find? (fun p => p.1 == api_id)).map Prod.snd

/-- `del self.api_containers[api_id]` (dict keys are unique, so removing every
pair with this key is the same deletion). -/
def tblErase (st : DeployerState) (api_id : String) : DeployerState :=
  st.filter (fun p => !(p.1 == api_id))

/-- Oracle for the Docker daemon and the tenant's HTTP socket.
* `reloadStatus h`: `container.reload(); container.status` — `none` means the
  reload raised, `some s` is the reported status string.
* `buildImage`: `client.images.build(...)` — `none` means `BuildError`,
  `some tag` is the built image.
* `runContainer`: `client.containers.run(...)` — `none` means `APIError`,
  `some h` is the new container handle.  (The removal of a leftover container
  with the same name, lines 107-115, swallows every exception and does not
  touch the record table, so it has no observable effect in this model.)
* `stopContainer h`: `container.stop(timeout=10); container.remove()` in
  `stop_api` — `false` means one of the two raised.
* `removeImageOk tag`: `client.images.remove(tag, force=True)` — its failure
  is only logged (lines 209-213), so the flag is never consulted.
* `probe i`: the `i`-th health-check `GET /` — `none` means the request
  raised, `some code` is the HTTP status code. -/
structure DockerEnv where
  reloadStatus : String → Option String
  buildImage : Option String
  runContainer : Option String
  stopContainer : String → Bool
  removeImageOk : String → Bool
  probe : Nat → Option Nat

/-- The exception classes escaping `deploy_api` / `stop_api`:
`Exception("Failed to build API container: ...")`, `Exception("Docker error:
...")`, and an unclassified re-raised exception. -/
inductive ExnKind where
  | buildError
  | dockerError
  | generic
deriving DecidableEq, Repr

/-- Result of one `deploy_api` call.  `rebuilt` records whether the
build-and-run path ran (the spy on the build collaborator); `attempts` and
`sleeps` count health probes and the 0.5-second sleeps between them. -/
inductive DeployOutcome where
  | ok (port : Nat) (rebuilt : Bool) (attempts sleeps : Nat)
  | exn (k : ExnKind)
deriving DecidableEq, Repr

inductive StopOutcome where
  | ok (stopped : Bool)
  | exn (k : ExnKind)
deriving DecidableEq, Repr

/-- The health-poll `for i in range(max_retries)` loop (lines 156-168):
probe; break on status 200/404; on an exception sleep 0.5s unless this was the
last attempt.  Returns (number of probes made, number of sleeps).  `fuel` is
the number of loop iterations left, so the loop is structurally bounded. -/
def healthLoopGo (probe : Nat → Option Nat) (maxRetries : Nat) :
    Nat → Nat → Nat → Nat → Nat × Nat
  | _, 0, attempts, sleeps => (attempts, sleeps)
  | i, fuel + 1, attempts, sleeps =>
    match probe i with
    | some status =>
      if status = 200 ∨ status = 404 then (attempts + 1, sleeps)
      else healthLoopGo probe maxRetries (i + 1) fuel (attempts + 1) sleeps
    | none =>
      if i < maxRetries - 1 then
        healthLoopGo probe maxRetries (i + 1) fuel (attempts + 1) (sleeps + 1)
      else healthLoopGo probe maxRetries (i + 1) fuel (attempts + 1) sleeps

def healthLoop (probe : Nat → Option Nat) (maxRetries : Nat) : Nat × Nat :=
  healthLoopGo probe maxRetries 0 maxRetries 0 0

def imageTag (api_id : String) : String := "user-api-" ++ api_id

/-- Lines 62-171 of `deploy_api`: the build-and-run path, entered with the
tenant's key absent from the table.  Writes the temp dir (cleaned up on every
exit path; invisible here), builds the image, starts the container, records
it, and runs the health poll whose outcome does not affect the returned
port. -/
def deployBuild (env : DockerEnv) (st : DeployerState) (api_id : String) :
    DeployOutcome × DeployerState :=
  match env.buildImage with
  | none => (.exn .buildError, st)
  | some _ =>
    let host_port := _get_port_for_api api_id
    match env.runContainer with
    | none => (.exn .dockerError, st)
    | some hdl =>
      let st' := st ++ [(api_id, ⟨hdl, host_port, imageTag api_id⟩)]
      let ap := healthLoop env.probe 30
      (.ok host_port true ap.1 ap.2, st')

/-- `APIDeployer.deploy_api` (lines 33-187).  Lines 48-60 first: if a record
exists and its container reloads with status `running`, return the recorded
port; if the record exists but the container is in another state or the reload
raises, delete the record and fall through to the build path. -/
def deploy_api (env : DockerEnv) (st : DeployerState) (api_id _code : String)
    (_requirements : Option String) : DeployOutcome × DeployerState :=
  match tblLookup st api_id with
  | some info =>
    match env.reloadStatus info.handle with
    | some s =>
      if s = "running" then (.ok info.port false 0 0, st)
      else deployBuild env (tblErase st api_id) api_id
    | none => deployBuild env (tblErase st api_id) api_id
  | none => deployBuild env st api_id

/-- `APIDeployer.stop_api` (lines 189-222): absent record returns `False`;
otherwise stop+remove the container (a raise propagates and leaves the record
in place), best-effort-remove the image, delete the record, return `True`. -/
def stop_api (env : DockerEnv) (st : DeployerState) (api_id : String) :
    StopOutcome × DeployerState :=
  match tblLookup st api_id with
  | none => (.ok false, st)
  | some info =>
    if env.stopContainer info.handle then
      (.ok true, tblErase st api_id)
    else (.exn .generic, st)

/-- `APIDeployer.restart_api` (lines 224-233): `await self.stop_api(api_id)`
then `return await self.deploy_api(api_id, code, requirements)`; an exception
from `stop_api` propagates before `deploy_api` is reached. -/
def restart_api (env : DockerEnv) (st : DeployerState) (api_id code : String)
    (requirements : Option String) : DeployOutcome × DeployerState :=
  match stop_api env st api_id with
  | (.ok _, st') => deploy_api env st' api_id code requirements
  | (.exn k, st') => (.exn k, st')

/-- The spec's description of `restart` in its own words: the sequential
composition of `stop` followed by `deploy`, where a stop failure propagates
and the deploy step is never attempted. -/
def restart_spec (env : DockerEnv) (st : DeployerState) (api_id code : String)
    (requirements : Option String) : DeployOutcome × DeployerState :=
  let stopped := stop_api env st api_id
  match stopped.1 with
  | .ok _ => deploy_api env stopped.2 api_id code requirements
  | .exn k => (.exn k, stopped.2)

/-- The phase-1 test of the cleanup sweep (lines 287-296): a record joins
`to_remove` when the reload raises or reports a status other than
`running`. -/
def containerDead (env : DockerEnv) (info : ContainerInfo) : Bool :=
  match env.reloadStatus info.handle with
  | some s => !(s == "running")
  | none => true

/-- One iteration of phase 2 of the sweep (lines 298-304): `stop_api` the
collected ID; if it raises, delete the record directly (`if api_id in
self.api_containers: del ...`). -/
def cleanupStep (env : DockerEnv) (st : DeployerState) (api_id : String) :
    DeployerState :=
  match stop_api env st api_id with
  | (.ok _, st2) => st2
  | (.exn _, st2) => tblErase st2 api_id

/-- Phase 2 of the sweep: fold `cleanupStep` over the collected IDs. -/
def cleanupRemoveLoop (env : DockerEnv) : DeployerState → List String → DeployerState
  | st, [] => st
  | st, api_id :: rest => cleanupRemoveLoop env (cleanupStep env st api_id) rest

/-- `APIDeployer.cleanup_stopped_containers` (lines 283-304). -/
def cleanup_stopped_containers (env : DockerEnv) (st : DeployerState) :
    DeployerState :=
  let to_remove := (st.filter (fun p => containerDead env p.2)).map Prod.fst
  cleanupRemoveLoop env st to_remove

/-! ### Rate limiter (`fastapi-backend/rate_limiter.py`).

Timestamps are seconds since the Unix epoch (`datetime` truncated to the hour
becomes `now - now % 3600`, since the epoch is hour-aligned in UTC).  The
`rate_limit_tracking` table is a list of rows plus the next fresh primary key;
row order in the list is immaterial because the code keys every access on
`(user_id, window_start)` and at most one live row carries that pair.  The
Supabase client is an oracle of three may-raise flags. -/

/-- One row of `rate_limit_tracking`: primary key `id`, `user_id`,
`window_start`, `request_count`. -/
structure RateRecord where
  rid : Nat
  user_id : String
  window_start : Nat
  request_count : Nat
deriving DecidableEq, Repr

structure RLStore where
  records : List RateRecord
  nextId : Nat
deriving DecidableEq, Repr

/-- The three `settings.rate_limit_*` values behind `TIER_LIMITS`. -/
structure RLSettings where
  rate_limit_free : Nat
  rate_limit_pro : Nat
  rate_limit_enterprise : Nat
deriving DecidableEq, Repr

/-- `TIER_LIMITS.get(user_plan, TIER_LIMITS['free'])`. -/
def tierLimit (s : RLSettings) (user_plan : String) : Nat :=
  if user_plan = "free" then s.rate_limit_free
  else if user_plan = "pro" then s.rate_limit_pro
  else if user_plan = "enterprise" then s.rate_limit_enterprise
  else s.rate_limit_free

/-- `get_current_window_start` (lines 20-23): truncate the current UTC time to
the hour. -/
def get_current_window_start (now : Nat) : Nat :=
  now - now % 3600

/-- Which Supabase calls raise.  `selectErr` makes the initial
`.select(...).execute()` raise; `insertErr` the `.insert(...)`; `updateErr`
the `.update(...)` in `increment_rate_limit`. -/
structure RLEnv where
  selectErr : Bool
  insertErr : Bool
  updateErr : Bool
deriving DecidableEq, Repr

def noErrEnv : RLEnv := ⟨false, false, false⟩

/-- The `select * where user_id = uid and window_start = ws` query. -/
def findRecord (store : RLStore) (user_id : String) (window_start : Nat) :
    Option RateRecord :=
  store.records.find?
    (fun r => r.user_id == user_id && r.window_start == window_start)

/-- An `insert` of a fresh row; Supabase assigns the primary key. -/
def insertRecord (store : RLStore) (user_id : String) (window_start count : Nat) :
    RLStore :=
  ⟨⟨store.nextId, user_id, window_start, count⟩ :: store.records, store.nextId + 1⟩

/-- The dict returned by `check_rate_limit`: `limit`, `remaining`, `reset`,
`current`.  `remaining` is `max(0, limit - current_count)` over the integers. -/
structure RLInfo where
  limit : Nat
  remaining : Int
  reset : Nat
  current : Nat
deriving DecidableEq, Repr

/-- The `except` branch of `check_rate_limit` (lines 71-79): allow the request
and report zero remaining. -/
def failOpenInfo (s : RLSettings) (user_plan : String) (now : Nat) : RLInfo :=
  ⟨tierLimit s user_plan, 0, get_current_window_start now + 3600, 0⟩

/-- Lines 57-69 of `check_rate_limit`, shared by the found-record and
fresh-record branches once `current_count` and the store are fixed. -/
def checkTail (s : RLSettings) (user_plan : String)
    (window_start current_count : Nat) (store' : RLStore) :
    Bool × RLInfo × RLStore :=
  let limit := tierLimit s user_plan
  (decide (current_count < limit),
   ⟨limit, max 0 ((limit : Int) - current_count), window_start + 3600,
    current_count⟩,
   store')

/-- `check_rate_limit` (lines 26-79).  A raise anywhere in the `try` body
lands in the fail-open branch with the store untouched. -/
def check_rate_limit (env : RLEnv) (s : RLSettings) (store : RLStore)
    (now : Nat) (user_id user_plan : String) : Bool × RLInfo × RLStore :=
  let window_start := get_current_window_start now
  if env.selectErr then (true, failOpenInfo s user_plan now, store)
  else
    match findRecord store user_id window_start with
    | some record =>
      checkTail s user_plan window_start record.request_count store
    | none =>
      if env.insertErr then (true, failOpenInfo s user_plan now, store)
      else
        checkTail s user_plan window_start 0
          (insertRecord store user_id window_start 0)

/-- The `.update({"request_count": new_count}).eq("id", rid)` call. -/
def updateCount (records : List RateRecord) (rid newCount : Nat) :
    List RateRecord :=
  records.map
    (fun r => if r.rid = rid then { r with request_count := newCount } else r)

/-- `increment_rate_limit` (lines 82-112); every raise is swallowed, leaving
the store unchanged. -/
def increment_rate_limit (env : RLEnv) (store : RLStore) (now : Nat)
    (user_id : String) : RLStore :=
  if env.selectErr then store
  else
    let window_start := get_current_window_start now
    match findRecord store user_id window_start with
    | some record =>
      if env.updateErr then store
      else ⟨updateCount store.records record.rid (record.request_count + 1),
            store.nextId⟩
    | none =>
      if env.insertErr then store
      else insertRecord store user_id window_start 1

/-- One forwarded request as the gateway drives the limiter: `check_rate_limit`
first, and `increment_rate_limit` only when the request was allowed
(fastapi-backend/main.py lines 232 and 301). -/
def requestStep (env : RLEnv) (s : RLSettings) (store : RLStore) (now : Nat)
    (user_id user_plan : String) : Bool × RLInfo × RLStore :=
  let r := check_rate_limit env s store now user_id user_plan
  if r.1 then (r.1, r.2.1, increment_rate_limit env r.2.2 now user_id) else r

/-- The store after `n` consecutive requests in the same window. -/
def iterRequests (env : RLEnv) (s : RLSettings) (store : RLStore) (now : Nat)
    (user_id user_plan : String) : Nat → RLStore
  | 0 => store
  | n + 1 =>
    (requestStep env s (iterRequests env s store now user_id user_plan n) now
      user_id user_plan).2.2

/-- The count the code compares against the quota: the stored row's
`request_count`, or 0 when the window has no row yet. -/
def currentCount (store : RLStore) (user_id : String) (window_start : Nat) :
    Nat :=
  match findRecord store user_id window_start with
  | some r => r.request_count
  | none => 0

/-! ### Gateway auth stage (`backend/main.py` lines 398-420 of
`proxy_to_user_api`, and `backend/auth.py::verify_api_key`).

JSON response bodies on this path are flat objects with string values,
modelled as field-name/value pairs; the body *shape* is the status code plus
the list of field names. -/

/-- A row of the external `apis` table joined with `users!inner(plan)`. -/
structure ApiRow where
  id : String
  api_key : String
  user_id : String
  status : String
  users_plan : Option String
deriving DecidableEq, Repr

structure MetaDB where
  apis : List ApiRow
deriving DecidableEq, Repr

/-- Whether the metadata-store query raises. -/
structure StoreEnv where
  raises : Bool
deriving DecidableEq, Repr

/-- The value `verify_api_key` returns on success: the row with the owner's
plan flattened in (`api_data['user_plan'] = api_data.get('users', {})
.get('plan', 'free')`). -/
structure ApiMeta where
  id : String
  api_key : String
  user_id : String
  status : String
  user_plan : String
deriving DecidableEq, Repr

/-- `backend/auth.py::verify_api_key` (lines 13-32): select the row matching
both the API id and the key; empty result or any exception gives `None`. -/
def verify_api_key (env : StoreEnv) (db : MetaDB) (api_id api_key : String) :
    Option ApiMeta :=
  if env.raises then none
  else
    match db.apis.find? (fun r => r.id == api_id && r.api_key == api_key) with
    | some row =>
      some ⟨row.id, row.api_key, row.user_id, row.status,
            row.users_plan.getD "free"⟩
    | none => none

/-- `p.isPrefixOf l` written out, for kernel-reducible evaluation. -/
def listIsPrefix : List Char → List Char → Bool
  | [], _ => true
  | _ :: _, [] => false
  | p :: ps, c :: cs => p == c && listIsPrefix ps cs

/-- Python's `str.replace(pat, rep)`: replace every non-overlapping occurrence
left to right.  The fuel starts at the subject's length; every recursive call
consumes at least one character whenever `pat` is nonempty, which is the only
way the source uses it. -/
def replaceAux (pat rep : List Char) : Nat → List Char → List Char
  | 0, l => l
  | _ + 1, [] => []
  | fuel + 1, c :: rest =>
    if listIsPrefix pat (c :: rest) then
      rep ++ replaceAux pat rep fuel ((c :: rest).drop pat.length)
    else c :: replaceAux pat rep fuel rest

def pyReplace (s pat rep : String) : String :=
  ⟨replaceAux pat.toList rep.toList s.toList.length s.toList⟩

def pyStartsWith (s pre : String) : Bool :=
  listIsPrefix pre.toList s.toList

/-- Lines 401-403 plus the `if not api_key` falsiness test (line 405):
`api_key` remains unset unless the header is truthy and starts with
`"Bearer "`, and an empty extracted key is as missing. -/
def extractApiKey : Option String → Option String
  | none => none
  | some a =>
    if a ≠ "" ∧ pyStartsWith a "Bearer " then
      let k := pyReplace a "Bearer " ""
      if k = "" then none else some k
    else none

structure Response where
  status : Nat
  body : List (String × String)
deriving DecidableEq, Repr

def respShape (r : Response) : Nat × List String :=
  (r.status, r.body.map Prod.fst)

def missingKeyBody : List (String × String) :=
  [("error",
    "Missing API key. Include 'Authorization: Bearer YOUR_API_KEY' header")]

def invalidKeyBody : List (String × String) :=
  [("error", "Invalid API key or API not found")]

/-- Outcome of the auth stage: an early JSON response, or the verified
metadata with which the handler continues. -/
inductive AuthStage where
  | reject (r : Response)
  | proceed (meta : ApiMeta)
deriving DecidableEq, Repr

/-- Lines 398-420 of `proxy_to_user_api`: extract the bearer key (401 with
`missingKeyBody` when absent), verify it (401 with `invalidKeyBody` when
`verify_api_key` returns `None`), otherwise continue with the metadata. -/
def proxyAuthStage (env : StoreEnv) (db : MetaDB) (api_id : String)
    (authorization : Option String) : AuthStage :=
  match extractApiKey authorization with
  | none => .reject ⟨401, missingKeyBody⟩
  | some api_key =>
    match verify_api_key env db api_id api_key with
    | none => .reject ⟨401, invalidKeyBody⟩
    | some meta => .proceed meta

/-! ### Helper lemmas about the deployment-record table. -/

lemma tblErase_of_lookup_none (st : DeployerState) (api_id : String)
    (h : tblLookup st api_id = none) : tblErase st api_id = st := by
  unfold tblLookup at h
  have h' : ∀ p ∈ st, ¬(p.1 == api_id) = true :=
    List.find?_eq_none.mp (Option.map_eq_none'.mp h)
  unfold tblErase
  apply List.filter_eq_self.mpr
  intro p hp
  simpa using h' p hp

lemma tblLookup_erase_self (st : DeployerState) (api_id : String) :
    tblLookup (tblErase st api_id) api_id = none := by
  unfold tblLookup tblErase
  simp

lemma tblLookup_erase_ne (st : DeployerState) (api_id j : String)
    (h : j ≠ api_id) : tblLookup (tblErase st api_id) j = tblLookup st j := by
  unfold tblLookup tblErase
  rw [List.find?_filter]
  congr 2
  funext p
  by_cases hp : p.1 = j <;> simp [hp, Ne.symm h, h]

lemma tblLookup_append_self (st : DeployerState) (api_id : String)
    (info : ContainerInfo) (h : tblLookup st api_id = none) :
    tblLookup (st ++ [(api_id, info)]) api_id = some info := by
  unfold tblLookup at h ⊢
  rw [List.find?_append, Option.map_eq_none'.mp h]
  simp

lemma mem_of_lookup_none (st : DeployerState) (api_id : String)
    (h : tblLookup st api_id = none) :
    ∀ p ∈ st, p.1 ≠ api_id := by
  unfold tblLookup at h
  intro p hp
  have h' := List.find?_eq_none.mp (Option.map_eq_none'.mp h) p hp
  simpa using h'

lemma mem_tblErase (st : DeployerState) (api_id : String)
    (p : String × ContainerInfo) (h : p ∈ tblErase st api_id) :
    p ∈ st ∧ p.1 ≠ api_id := by
  unfold tblErase at h
  have := List.mem_filter.mp h
  refine ⟨this.1, ?_⟩
  simpa using this.2

/-! ### Helper lemmas about the health-poll loop and the cleanup sweep. -/

lemma healthLoopGo_attempts_le (probe : Nat → Option Nat) (m : Nat) :
    ∀ fuel i attempts sleeps,
      (healthLoopGo probe m i fuel attempts sleeps).1 ≤ attempts + fuel := by
  intro fuel
  induction fuel with
  | zero => intro i a s; simp [healthLoopGo]
  | succ f ih =>
    intro i a s
    unfold healthLoopGo
    cases probe i with
    | some status =>
      by_cases hs : status = 200 ∨ status = 404
      · simp only [hs, if_true]
        omega
      · simp only [hs, if_false]
        calc (healthLoopGo probe m (i + 1) f (a + 1) s).1 ≤ (a + 1) + f := ih _ _ _
          _ = a + (f + 1) := by omega
    | none =>
      by_cases hi : i < m - 1
      · simp only [hi, if_true]
        calc (healthLoopGo probe m (i + 1) f (a + 1) (s + 1)).1 ≤ (a + 1) + f := ih _ _ _
          _ = a + (f + 1) := by omega
      · simp only [hi, if_false]
        calc (healthLoopGo probe m (i + 1) f (a + 1) s).1 ≤ (a + 1) + f := ih _ _ _
          _ = a + (f + 1) := by omega

lemma healthLoopGo_all_none (probe : Nat → Option Nat)
    (hp : ∀ j, probe j = none) :
    ∀ fuel i attempts sleeps, 1 ≤ fuel → i + fuel = 30 →
      healthLoopGo probe 30 i fuel attempts sleeps =
        (attempts + fuel, sleeps + (fuel - 1)) := by
  intro fuel
  induction fuel with
  | zero => omega
  | succ f ih =>
    intro i a s _ hi
    unfold healthLoopGo
    rw [hp i]
    rcases Nat.eq_zero_or_pos f with hf | hf
    · subst hf
      have : ¬ i < 30 - 1 := by omega
      simp [this, healthLoopGo]
    · have : i < 30 - 1 := by omega
      simp only [this, if_true]
      rw [ih (i + 1) (a + 1) (s + 1) (by omega) (by omega)]
      have h1 : a + 1 + f = a + (f + 1) := by omega
      have h2 : s + 1 + (f - 1) = s + (f + 1 - 1) := by omega
      rw [h1, h2]

lemma healthLoop_all_none (probe : Nat → Option Nat)
    (hp : ∀ j, probe j = none) : healthLoop probe 30 = (30, 29) := by
  unfold healthLoop
  rw [healthLoopGo_all_none probe hp 30 0 0 0 (by omega) (by omega)]

lemma mem_cleanupStep (env : DockerEnv) (st : DeployerState) (api_id : String)
    (q : String × ContainerInfo) (hq : q ∈ cleanupStep env st api_id) :
    q ∈ st ∧ q.1 ≠ api_id := by
  unfold cleanupStep stop_api at hq
  rcases hl : tblLookup st api_id with _ | info <;> rw [hl] at hq
  · exact ⟨hq, mem_of_lookup_none st api_id hl q hq⟩
  · by_cases hstop : env.stopContainer info.handle = true <;>
      simp only [hstop, if_true, if_false, Bool.false_eq_true] at hq <;>
      exact mem_tblErase st api_id q hq

lemma cleanupRemoveLoop_mem (env : DockerEnv) :
    ∀ (ids : List String) (st : DeployerState) (p : String × ContainerInfo),
      p ∈ cleanupRemoveLoop env st ids → p ∈ st ∧ p.1 ∉ ids := by
  intro ids
  induction ids with
  | nil =>
    intro st p hp
    exact ⟨hp, by simp⟩
  | cons api_id rest ih =>
    intro st p hp
    unfold cleanupRemoveLoop at hp
    rcases ih (cleanupStep env st api_id) p hp with ⟨hmem, hrest⟩
    rcases mem_cleanupStep env st api_id p hmem with ⟨hmem', hne⟩
    refine ⟨hmem', ?_⟩
    simp only [List.mem_cons]
    rintro (hh | hh)
    · exact hne hh
    · exact hrest hh

/-! ### Claim theorems: deployment manager. -/

/-- C1: if a deployment record exists for a tenant and its container reports
status `running`, a second `deploy_api` call with the same ID (and any code
and requirements) returns the same port as the first call, performs no
rebuild, and leaves the record table unchanged.  Stated over a first deploy
from a fresh table followed by a second deploy against a running container:
both calls return `_get_port_for_api api_id`, the second reports
`rebuilt = false`, and the table after the second call equals the table after
the first. -/
theorem deploy_idempotent_running (env : DockerEnv) (st : DeployerState)
    (api_id code code2 : String) (reqs reqs2 : Option String) (img hdl : String)
    (h0 : tblLookup st api_id = none)
    (hb : env.buildImage = some img)
    (hr : env.runContainer = some hdl)
    (hrel : env.reloadStatus hdl = some "running") :
    deploy_api env st api_id code reqs =
      (.ok (_get_port_for_api api_id) true
        (healthLoop env.probe 30).1 (healthLoop env.probe 30).2,
       st ++ [(api_id, ⟨hdl, _get_port_for_api api_id, imageTag api_id⟩)])
    ∧ deploy_api env
        (st ++ [(api_id, ⟨hdl, _get_port_for_api api_id, imageTag api_id⟩)])
        api_id code2 reqs2 =
      (.ok (_get_port_for_api api_id) false 0 0,
       st ++ [(api_id, ⟨hdl, _get_port_for_api api_id, imageTag api_id⟩)]) := by
  constructor
  · simp [deploy_api, h0, deployBuild, hb, hr]
  · simp [deploy_api, tblLookup_append_self st api_id _ h0, hrel]

def wEnvC1 : DockerEnv :=
  ⟨fun _ => some "running", some "img", some "c1", fun _ => true, fun _ => true,
   fun _ => some 200⟩

theorem deploy_idempotent_running_witness :
    deploy_api wEnvC1 [] "t" "c" none =
      (.ok (_get_port_for_api "t") true
        (healthLoop wEnvC1.probe 30).1 (healthLoop wEnvC1.probe 30).2,
       [("t", ⟨"c1", _get_port_for_api "t", imageTag "t"⟩)])
    ∧ deploy_api wEnvC1 [("t", ⟨"c1", _get_port_for_api "t", imageTag "t"⟩)]
        "t" "c2" none =
      (.ok (_get_port_for_api "t") false 0 0,
       [("t", ⟨"c1", _get_port_for_api "t", imageTag "t"⟩)]) :=
  deploy_idempotent_running wEnvC1 [] "t" "c" "c2" none none "img" "c1"
    rfl rfl rfl rfl

/-- C5: `restart_api` is extensionally the sequential composition of
`stop_api` followed by `deploy_api` (`restart_spec`, written from the spec's
words); in particular a stop error propagates out of restart unchanged and
`deploy_api` is never reached. -/
theorem restart_is_stop_then_deploy (env : DockerEnv) (st : DeployerState)
    (api_id code : String) (reqs : Option String) :
    restart_api env st api_id code reqs = restart_spec env st api_id code reqs
    ∧ ∀ k st', stop_api env st api_id = (.exn k, st') →
        restart_api env st api_id code reqs = (.exn k, st') := by
  constructor
  · unfold restart_api restart_spec
    rcases h : stop_api env st api_id with ⟨out, st2⟩
    cases out <;> simp
  · intro k st' h
    unfold restart_api
    rw [h]

def wEnvC5 : DockerEnv :=
  ⟨fun _ => some "running", none, none, fun _ => false, fun _ => true,
   fun _ => none⟩

def wStC5 : DeployerState := [("t", ⟨"c9", 9100, "user-api-t"⟩)]

theorem restart_is_stop_then_deploy_witness :
    restart_api wEnvC5 wStC5 "t" "c" none = (.exn .generic, wStC5) :=
  (restart_is_stop_then_deploy wEnvC5 wStC5 "t" "c" none).2 .generic wStC5
    (by decide)

/-- C6: the health-poll loop inside deploy performs at most 30 probe attempts
(for any probe behaviour), and exhausting every attempt without a successful
probe does not make deploy fail: with every probe raising, deploy makes
exactly 30 attempts with the fixed 0.5-second sleep between consecutive
attempts (29 sleeps) and still returns the assigned port. -/
theorem health_poll_bounded_nonfatal (env : DockerEnv) (st : DeployerState)
    (api_id code : String) (reqs : Option String) (img hdl : String)
    (h0 : tblLookup st api_id = none)
    (hb : env.buildImage = some img)
    (hr : env.runContainer = some hdl) :
    (∀ probe : Nat → Option Nat, (healthLoop probe 30).1 ≤ 30)
    ∧ ((∀ i, env.probe i = none) →
        deploy_api env st api_id code reqs =
          (.ok (_get_port_for_api api_id) true 30 29,
           st ++ [(api_id, ⟨hdl, _get_port_for_api api_id, imageTag api_id⟩)])) := by
  constructor
  · intro probe
    have := healthLoopGo_attempts_le probe 30 30 0 0 0
    simpa [healthLoop] using this
  · intro hpnone
    simp [deploy_api, h0, deployBuild, hb, hr, healthLoop_all_none env.probe hpnone]

def wEnvC6 : DockerEnv :=
  ⟨fun _ => some "s", some "img", some "c1", fun _ => true, fun _ => true,
   fun _ => none⟩

theorem health_poll_bounded_nonfatal_witness :
    deploy_api wEnvC6 [] "t" "c" none =
      (.ok (_get_port_for_api "t") true 30 29,
       [("t", ⟨"c1", _get_port_for_api "t", imageTag "t"⟩)]) :=
  (health_poll_bounded_nonfatal wEnvC6 [] "t" "c" none "img" "c1"
    rfl rfl rfl).2 (fun _ => rfl)

def cxInfo : ContainerInfo := ⟨"c0", 9001, "user-api-t1"⟩

def cxEnvBuildFail : DockerEnv :=
  ⟨fun _ => some "exited", none, none, fun _ => true, fun _ => true,
   fun _ => none⟩

/-- C7 counterexample: with a stale (non-running) record present, a deploy
whose build step fails leaves the record table *changed* — the stale record
was deleted before the build (lines 56-60) and is not restored — so the
claim's "record table is left unchanged" is false as stated. -/
theorem build_failure_table_changed_cx :
    (deploy_api cxEnvBuildFail [("t1", cxInfo)] "t1" "print(1)" none).1 =
      DeployOutcome.exn .buildError
    ∧ (deploy_api cxEnvBuildFail [("t1", cxInfo)] "t1" "print(1)" none).2 ≠
      [("t1", cxInfo)] := by
  constructor
  · decide
  · decide

/-- C7 (amended): if the build step of deploy fails, deploy raises a build
error and afterwards no deployment record exists for that tenant ID; records
of all other tenants are unchanged, and when no record existed for the ID
beforehand the table is wholly unchanged (the post-state is exactly
`tblErase st api_id`, which equals `st` in that case).  The hypothesis `hnr`
says the build path is actually reached (no running container
short-circuits the call). -/
theorem build_failure_no_record (env : DockerEnv) (st : DeployerState)
    (api_id code : String) (reqs : Option String)
    (hb : env.buildImage = none)
    (hnr : ∀ info, tblLookup st api_id = some info →
        env.reloadStatus info.handle ≠ some "running") :
    deploy_api env st api_id code reqs = (.exn .buildError, tblErase st api_id)
    ∧ tblLookup (tblErase st api_id) api_id = none
    ∧ (∀ j, j ≠ api_id →
        tblLookup (tblErase st api_id) j = tblLookup st j)
    ∧ (tblLookup st api_id = none → tblErase st api_id = st) := by
  refine ⟨?_, tblLookup_erase_self st api_id,
    fun j hj => tblLookup_erase_ne st api_id j hj,
    fun hn => tblErase_of_lookup_none st api_id hn⟩
  unfold deploy_api
  rcases hl : tblLookup st api_id with _ | info
  · simp only [hl]
    rw [tblErase_of_lookup_none st api_id hl]
    simp [deployBuild, hb]
  · simp only [hl]
    rcases hrs : env.reloadStatus info.handle with _ | s
    · simp [deployBuild, hb]
    · have hs : s ≠ "running" := by
        intro hcontra
        exact hnr info hl (by rw [hrs, hcontra])
      simp [hs, deployBuild, hb]

theorem build_failure_no_record_witness :
    tblLookup (tblErase [("t1", cxInfo)] "t1") "t1" = none :=
  (build_failure_no_record cxEnvBuildFail [("t1", cxInfo)] "t1" "print(1)" none
    rfl
    (fun info h => by
      have h0 : tblLookup [("t1", cxInfo)] "t1" = some cxInfo := rfl
      rw [h0] at h
      injection h with h2
      subst h2
      decide)).2.1

/-- C8: after `cleanup_stopped_containers`, every entry still in the record
table belonged to the original table and its container was *not* observed
dead (its reload neither raised nor reported a non-`running` status); hence
no tenant observed dead — including those whose stop-cleanup path failed —
remains in the table. -/
theorem cleanup_no_dead_records (env : DockerEnv) (st : DeployerState)
    (p : String × ContainerInfo)
    (h : p ∈ cleanup_stopped_containers env st) :
    p ∈ st ∧ containerDead env p.2 = false := by
  unfold cleanup_stopped_containers at h
  rcases cleanupRemoveLoop_mem env _ st p h with ⟨hmem, hnot⟩
  refine ⟨hmem, ?_⟩
  by_contra hdead
  cases hc : containerDead env p.2 with
  | false => exact hdead hc
  | true =>
    apply hnot
    apply List.mem_map.mpr
    exact ⟨p, List.mem_filter.mpr ⟨hmem, hc⟩, rfl⟩

def aliveInfo : ContainerInfo := ⟨"ha", 9001, "ia"⟩

def deadInfo : ContainerInfo := ⟨"hb", 9002, "ib"⟩

def wEnvC8 : DockerEnv :=
  ⟨fun h => if h = "ha" then some "running" else some "exited",
   some "i", some "c", fun _ => false, fun _ => true, fun _ => none⟩

def wStC8 : DeployerState := [("a", aliveInfo), ("b", deadInfo)]

theorem cleanup_no_dead_records_witness :
    ("a", aliveInfo) ∈ wStC8 ∧ containerDead wEnvC8 aliveInfo = false :=
  cleanup_no_dead_records wEnvC8 wStC8 ("a", aliveInfo) (by decide)

/-! ### Helper lemmas about the rate limiter. -/

lemma findRecord_matches {store : RLStore} {uid : String} {ws : Nat}
    {r : RateRecord} (h : findRecord store uid ws = some r) :
    r.user_id = uid ∧ r.window_start = ws := by
  unfold findRecord at h
  have hp := List.find?_some h
  simpa using hp

lemma findRecord_insert (store : RLStore) (uid : String) (ws c : Nat) :
    findRecord (insertRecord store uid ws c) uid ws =
      some ⟨store.nextId, uid, ws, c⟩ := by
  unfold findRecord insertRecord
  simp

lemma findRecord_updateCount (l : List RateRecord) (k rid c : Nat)
    (uid : String) (ws : Nat) :
    findRecord ⟨updateCount l rid c, k⟩ uid ws =
      (findRecord ⟨l, k⟩ uid ws).map
        (fun r => if r.rid = rid then { r with request_count := c } else r) := by
  unfold findRecord updateCount
  rw [List.find?_map]
  congr 2
  funext r
  by_cases h : r.rid = rid <;> simp [h]

lemma check_allowed_eq (s : RLSettings) (store : RLStore) (now : Nat)
    (uid plan : String) :
    (check_rate_limit noErrEnv s store now uid plan).1 =
      decide (currentCount store uid (get_current_window_start now) <
        tierLimit s plan) := by
  unfold check_rate_limit currentCount noErrEnv checkTail
  rcases h : findRecord store uid (get_current_window_start now) with _ | r <;>
    simp [h]

lemma check_info_eq (s : RLSettings) (store : RLStore) (now : Nat)
    (uid plan : String) :
    (check_rate_limit noErrEnv s store now uid plan).2.1 =
      ⟨tierLimit s plan,
       max 0 ((tierLimit s plan : Int) -
         currentCount store uid (get_current_window_start now)),
       get_current_window_start now + 3600,
       currentCount store uid (get_current_window_start now)⟩ := by
  unfold check_rate_limit currentCount noErrEnv checkTail
  rcases h : findRecord store uid (get_current_window_start now) with _ | r <;>
    simp [h]

lemma check_store_found (s : RLSettings) (store : RLStore) (now : Nat)
    (uid plan : String) (r : RateRecord)
    (hf : findRecord store uid (get_current_window_start now) = some r) :
    (check_rate_limit noErrEnv s store now uid plan).2.2 = store := by
  unfold check_rate_limit noErrEnv checkTail
  simp [hf]

lemma check_store_fresh (s : RLSettings) (store : RLStore) (now : Nat)
    (uid plan : String)
    (hf : findRecord store uid (get_current_window_start now) = none) :
    (check_rate_limit noErrEnv s store now uid plan).2.2 =
      insertRecord store uid (get_current_window_start now) 0 := by
  unfold check_rate_limit noErrEnv checkTail
  simp [hf]

lemma requestStep_found (s : RLSettings) (store : RLStore) (now : Nat)
    (uid plan : String) (r : RateRecord)
    (hr : findRecord store uid (get_current_window_start now) = some r)
    (hlt : r.request_count < tierLimit s plan) :
    findRecord (requestStep noErrEnv s store now uid plan).2.2 uid
        (get_current_window_start now) =
      some { r with request_count := r.request_count + 1 } := by
  have h1 : (check_rate_limit noErrEnv s store now uid plan).1 = true := by
    rw [check_allowed_eq]
    simp [currentCount, hr, hlt]
  simp only [requestStep, h1, if_true]
  rw [check_store_found s store now uid plan r hr]
  unfold increment_rate_limit noErrEnv
  simp only [Bool.false_eq_true, if_false]
  rw [hr]
  simp only [Bool.false_eq_true, if_false]
  rw [findRecord_updateCount store.records store.nextId r.rid
    (r.request_count + 1) uid (get_current_window_start now)]
  have : findRecord ⟨store.records, store.nextId⟩ uid
      (get_current_window_start now) = some r := hr
  rw [this]
  simp

lemma requestStep_fresh (s : RLSettings) (store : RLStore) (now : Nat)
    (uid plan : String)
    (hf : findRecord store uid (get_current_window_start now) = none)
    (hQ : 0 < tierLimit s plan) :
    findRecord (requestStep noErrEnv s store now uid plan).2.2 uid
        (get_current_window_start now) =
      some ⟨store.nextId, uid, get_current_window_start now, 1⟩ := by
  have h1 : (check_rate_limit noErrEnv s store now uid plan).1 = true := by
    rw [check_allowed_eq]
    simp [currentCount, hf, hQ]
  simp only [requestStep, h1, if_true]
  rw [check_store_fresh s store now uid plan hf]
  unfold increment_rate_limit noErrEnv
  simp only [Bool.false_eq_true, if_false]
  rw [findRecord_insert store uid (get_current_window_start now) 0]
  simp only [Bool.false_eq_true, if_false]
  have heq := findRecord_updateCount
    (insertRecord store uid (get_current_window_start now) 0).records
    (insertRecord store uid (get_current_window_start now) 0).nextId
    store.nextId 1 uid (get_current_window_start now)
  rw [heq]
  have : findRecord ⟨(insertRecord store uid (get_current_window_start now) 0).records,
      (insertRecord store uid (get_current_window_start now) 0).nextId⟩ uid
      (get_current_window_start now) =
      some ⟨store.nextId, uid, get_current_window_start now, 0⟩ :=
    findRecord_insert store uid (get_current_window_start now) 0
  rw [this]
  simp

lemma iter_fresh_count (s : RLSettings) (store : RLStore) (now : Nat)
    (uid plan : String)
    (hf : findRecord store uid (get_current_window_start now) = none)
    (hQ : 0 < tierLimit s plan) :
    ∀ n, n ≤ tierLimit s plan →
      currentCount (iterRequests noErrEnv s store now uid plan n) uid
        (get_current_window_start now) = n := by
  have key : ∀ n, 1 ≤ n → n ≤ tierLimit s plan →
      ∃ rr, findRecord (iterRequests noErrEnv s store now uid plan n) uid
          (get_current_window_start now) = some rr
        ∧ rr.request_count = n := by
    intro n
    induction n with
    | zero => omega
    | succ m ih =>
      intro _ hle
      rcases Nat.eq_zero_or_pos m with hm | hm
      · subst hm
        refine ⟨⟨store.nextId, uid, get_current_window_start now, 1⟩, ?_, rfl⟩
        show findRecord (requestStep noErrEnv s
          (iterRequests noErrEnv s store now uid plan 0) now uid plan).2.2 uid
          (get_current_window_start now) = _
        exact requestStep_fresh s store now uid plan hf hQ
      · rcases ih (by omega) (by omega) with ⟨rr, hrr, hcount⟩
        refine ⟨{ rr with request_count := rr.request_count + 1 }, ?_, by
          simp [hcount]⟩
        show findRecord (requestStep noErrEnv s
          (iterRequests noErrEnv s store now uid plan m) now uid plan).2.2 uid
          (get_current_window_start now) = _
        exact requestStep_found s _ now uid plan rr hrr (by omega)
  intro n hn
  cases n with
  | zero =>
    unfold currentCount iterRequests
    rw [hf]
  | succ m =>
    rcases key (m + 1) (by omega) hn with ⟨rr, hrr, hcount⟩
    unfold currentCount
    rw [hrr]
    simpa using hcount

/-! ### Claim theorems: rate limiter. -/

/-- C3: with a working store, `check_rate_limit` allows exactly when the
current window's count is strictly below the quota Q; `remaining` is
`max(0, Q - count)` and `reset` is the start of the next hour; and starting
from a window with no record (in particular the first request of a new hour
window, whatever older windows hold), requests 1..Q are all allowed, request
Q+1 is rejected, and the first check lazily creates a fresh record with
count 0 for the window. -/
theorem rate_limit_window_behavior (s : RLSettings) (store : RLStore)
    (now : Nat) (uid plan : String) (hQ : 0 < tierLimit s plan) :
    ((check_rate_limit noErrEnv s store now uid plan).1 = true ↔
        currentCount store uid (get_current_window_start now) <
          tierLimit s plan)
    ∧ (check_rate_limit noErrEnv s store now uid plan).2.1.remaining =
        max 0 ((tierLimit s plan : Int) -
          currentCount store uid (get_current_window_start now))
    ∧ (check_rate_limit noErrEnv s store now uid plan).2.1.reset =
        get_current_window_start now + 3600
    ∧ (findRecord store uid (get_current_window_start now) = none →
        (∀ n, n < tierLimit s plan →
          (check_rate_limit noErrEnv s
            (iterRequests noErrEnv s store now uid plan n) now uid plan).1 =
            true)
        ∧ (check_rate_limit noErrEnv s
            (iterRequests noErrEnv s store now uid plan (tierLimit s plan))
            now uid plan).1 = false
        ∧ findRecord (check_rate_limit noErrEnv s store now uid plan).2.2 uid
            (get_current_window_start now) =
          some ⟨store.nextId, uid, get_current_window_start now, 0⟩) := by
  refine ⟨?_, ?_, ?_, ?_⟩
  · rw [check_allowed_eq]
    exact decide_eq_true_iff
  · rw [check_info_eq]
  · rw [check_info_eq]
  · intro hf
    refine ⟨?_, ?_, ?_⟩
    · intro n hn
      rw [check_allowed_eq,
        iter_fresh_count s store now uid plan hf hQ n (Nat.le_of_lt hn)]
      simpa using hn
    · rw [check_allowed_eq,
        iter_fresh_count s store now uid plan hf hQ (tierLimit s plan)
          Nat.le.refl]
      simp
    · rw [check_store_fresh s store now uid plan hf]
      exact findRecord_insert store uid (get_current_window_start now) 0

def sW : RLSettings := ⟨2, 10, 100⟩

theorem rate_limit_window_behavior_witness :
    (check_rate_limit noErrEnv sW ⟨[], 0⟩ 7200 "u" "free").2.1.reset =
      get_current_window_start 7200 + 3600 :=
  (rate_limit_window_behavior sW ⟨[], 0⟩ 7200 "u" "free" (by decide)).2.2.1

/-- C4: when the persisted store errors during `check_rate_limit` (the select
raises, or the lazy insert for a fresh window raises), the call does not
propagate the error: it returns `allowed = true` with an info record whose
`remaining` is 0, and the store is untouched. -/
theorem rate_limit_fail_open (env : RLEnv) (s : RLSettings) (store : RLStore)
    (now : Nat) (uid plan : String)
    (h : env.selectErr = true ∨
      (env.insertErr = true ∧
        findRecord store uid (get_current_window_start now) = none)) :
    check_rate_limit env s store now uid plan =
      (true, ⟨tierLimit s plan, 0, get_current_window_start now + 3600, 0⟩,
       store) := by
  unfold check_rate_limit failOpenInfo
  rcases h with hsel | ⟨hins, hf⟩
  · simp [hsel]
  · by_cases hsel : env.selectErr = true
    · simp [hsel]
    · simp [hsel, hf, hins]

theorem rate_limit_fail_open_witness :
    check_rate_limit ⟨true, false, false⟩ sW ⟨[], 5⟩ 7200 "u" "free" =
      (true, ⟨tierLimit sW "free", 0, get_current_window_start 7200 + 3600, 0⟩,
       ⟨[], 5⟩) :=
  rate_limit_fail_open ⟨true, false, false⟩ sW ⟨[], 5⟩ 7200 "u" "free"
    (Or.inl rfl)

/-! ### Claim theorems: port allocator and gateway auth stage. -/

/-- C2: the port allocator is a pure function of the tenant ID equal to
`9000 + sha256(id) % 10000` — so equal IDs always map to equal ports — and
every returned port lies in `[9000, 19000)`. -/
theorem port_allocator_formula_range (api_id : String) :
    _get_port_for_api api_id = 9000 + sha256Nat (strBytes api_id) % 10000
    ∧ 9000 ≤ _get_port_for_api api_id
    ∧ _get_port_for_api api_id < 19000
    ∧ ∀ id2 : String, id2 = api_id →
        _get_port_for_api id2 = _get_port_for_api api_id := by
  refine ⟨rfl, Nat.le_add_right _ _, ?_, fun id2 h => by rw [h]⟩
  have h : sha256Nat (strBytes api_id) % 10000 < 10000 :=
    Nat.mod_lt _ (by norm_num)
  unfold _get_port_for_api
  omega

theorem port_allocator_formula_range_witness :
    9000 ≤ _get_port_for_api "abc" ∧ _get_port_for_api "abc" < 19000 ∧
      _get_port_for_api "abc" = _get_port_for_api "abc" :=
  ⟨(port_allocator_formula_range "abc").2.1,
   (port_allocator_formula_range "abc").2.2.1,
   (port_allocator_formula_range "abc").2.2.2 "abc" rfl⟩

/-- C9: a `/run` request with no (or non-bearer, or empty) credential and a
request with a present-but-wrong bearer token both get status 401 with the
same body shape — a JSON object with exactly one `error` field — and the
wrong-key response is *identical* whether the tenant exists with a different
key or does not exist at all (both have `verify_api_key = none`), so nothing
distinguishes a wrong key from an unknown tenant. -/
theorem auth_symmetry_401 (env : StoreEnv) (dbW dbU : MetaDB)
    (api_id key : String) (hdr0 hdr1 : Option String)
    (h0 : extractApiKey hdr0 = none)
    (h1 : extractApiKey hdr1 = some key)
    (hw : verify_api_key env dbW api_id key = none)
    (hu : verify_api_key env dbU api_id key = none) :
    proxyAuthStage env dbW api_id hdr0 = .reject ⟨401, missingKeyBody⟩
    ∧ proxyAuthStage env dbW api_id hdr1 = .reject ⟨401, invalidKeyBody⟩
    ∧ proxyAuthStage env dbW api_id hdr1 = proxyAuthStage env dbU api_id hdr1
    ∧ respShape ⟨401, missingKeyBody⟩ = respShape ⟨401, invalidKeyBody⟩
    ∧ respShape ⟨401, missingKeyBody⟩ = (401, ["error"]) := by
  have e0 : proxyAuthStage env dbW api_id hdr0 = .reject ⟨401, missingKeyBody⟩ := by
    simp [proxyAuthStage, h0]
  have e1 : proxyAuthStage env dbW api_id hdr1 = .reject ⟨401, invalidKeyBody⟩ := by
    simp [proxyAuthStage, h1, hw]
  have e2 : proxyAuthStage env dbU api_id hdr1 = .reject ⟨401, invalidKeyBody⟩ := by
    simp [proxyAuthStage, h1, hu]
  exact ⟨e0, e1, by rw [e1, e2], rfl, rfl⟩

def wDbW : MetaDB := ⟨[⟨"t1", "secret", "u1", "active", some "free"⟩]⟩

def wDbU : MetaDB := ⟨[]⟩

-- The bearer-key extraction model evaluates on a concrete header.
example : extractApiKey (some "Bearer wrongkey") = some "wrongkey" := by decide

theorem auth_symmetry_401_witness :
    proxyAuthStage ⟨false⟩ wDbW "t1" (some "Bearer wrongkey") =
      .reject ⟨401, invalidKeyBody⟩
    ∧ proxyAuthStage ⟨false⟩ wDbW "t1" (some "Bearer wrongkey") =
      proxyAuthStage ⟨false⟩ wDbU "t1" (some "Bearer wrongkey") :=
  ⟨(auth_symmetry_401 ⟨false⟩ wDbW wDbU "t1" "wrongkey" none
      (some "Bearer wrongkey") rfl (by decide) (by decide) (by decide)).2.1,
   (auth_symmetry_401 ⟨false⟩ wDbW wDbU "t1" "wrongkey" none
      (some "Bearer wrongkey") rfl (by decide) (by decide) (by decide)).2.2.1⟩

/-- C10: if the metadata-store lookup raises, `verify_api_key` returns `None`
instead of propagating the error, so the gateway answers any
credential-bearing request with the 401 invalid-key response — authentication
fails closed during a store outage, in contrast to the rate limiter, which
under a store error answers `allowed = true` (fail-open). -/
theorem verify_fail_closed (env : StoreEnv) (db : MetaDB)
    (api_id api_key : String) (h : env.raises = true) :
    verify_api_key env db api_id api_key = none
    ∧ (∀ hdr k, extractApiKey hdr = some k →
        proxyAuthStage env db api_id hdr = .reject ⟨401, invalidKeyBody⟩)
    ∧ (∀ (s : RLSettings) (store : RLStore) (now : Nat) (uid plan : String)
        (iFlag uFlag : Bool),
        (check_rate_limit ⟨true, iFlag, uFlag⟩ s store now uid plan).1 =
          true) := by
  have hv : ∀ k, verify_api_key env db api_id k = none := by
    intro k
    unfold verify_api_key
    simp [h]
  refine ⟨hv api_key, ?_, ?_⟩
  · intro hdr k hk
    simp [proxyAuthStage, hk, hv k]
  · intro s store now uid plan iFlag uFlag
    unfold check_rate_limit
    simp

theorem verify_fail_closed_witness :
    verify_api_key ⟨true⟩ ⟨[]⟩ "t" "k" = none :=
  (verify_fail_closed ⟨true⟩ ⟨[]⟩ "t" "k" rfl).1

end ApiCreator
